import Mathlib

/-!
Verification of the YM2612 FM control layer of the smdc toolchain
(`sdk/c/examples/channel_test.c`) against its design specification.

The C functions are shallowly embedded as Lean functions that return the
trace of port writes they emit.  A write of a byte to one of the two
YM2612 address/data port pairs is recorded as a single event carrying the
bank (port pair 0 = bank A, port pair 1 = bank B), the selected register
and the data byte; a write to the PSG port is recorded as a `psg` event.
The C stores go through `unsigned char *` pointers, so both the register
select and the data byte are reduced modulo 256, exactly as the hardware
port sees them.  The busy-wait delay routines (`ym_delay`, `wait_long`,
`wait_short`) emit no events and are not modelled.  All C `int` arguments
are modelled as `Nat` over the nonnegative ranges the program exercises,
except the operator argument of `ym_op`, which is modelled as `Int` so
that the behaviour of its conditional chain on every integer can be
stated.
-/

/-- The two YM2612 register banks: bank A is the port pair at
`0xA04000/0xA04001`, bank B the pair at `0xA04002/0xA04003`. -/
inductive Bank where
  | A : Bank
  | B : Bank
deriving DecidableEq, Repr

/-- One observable port write: a YM2612 bank-A register write, a bank-B
register write, or a PSG byte. -/
inductive Ev where
  | ymA (reg val : Nat) : Ev
  | ymB (reg val : Nat) : Ev
  | psg (val : Nat) : Ev
deriving DecidableEq, Repr

/-- The bank/register pair a YM2612 event targets (`none` for PSG). -/
def Ev.target : Ev → Option (Bank × Nat)
  | .ymA r _ => some (Bank.A, r)
  | .ymB r _ => some (Bank.B, r)
  | .psg _ => none

/-- Whether an event writes the given YM2612 register (on either bank). -/
def Ev.touches (e : Ev) (reg : Nat) : Bool :=
  match e with
  | .ymA r _ => r = reg
  | .ymB r _ => r = reg
  | .psg _ => false

/-- `ym_write0` of channel_test.c: store `reg` then `val` through
`unsigned char *` pointers to the bank-A address/data ports. -/
def ym_write0 (reg val : Nat) : List Ev := [Ev.ymA (reg % 256) (val % 256)]

/-- `ym_write1` of channel_test.c: same against the bank-B port pair. -/
def ym_write1 (reg val : Nat) : List Ev := [Ev.ymB (reg % 256) (val % 256)]

/-- The sequence of values assigned to the local variable `off` by the
four guarded assignments at the top of `ym_op`, in program order:
`if (op < 1) off = 0; if (op > 0) if (op < 2) off = 8;
if (op > 1) if (op < 3) off = 4; if (op > 2) off = 12;`.
An empty trace would mean `off` is read uninitialized. -/
def ym_op_off_trace (op : Int) : List Int :=
  (if op < 1 then [(0 : Int)] else []) ++
  ((if op > 0 then if op < 2 then [(8 : Int)] else [] else []) ++
  ((if op > 1 then if op < 3 then [(4 : Int)] else [] else []) ++
  (if op > 2 then [(12 : Int)] else [])))

/-- The value of `off` read after the conditional chain of `ym_op`: the
last assigned value (the default 0 is never reached, see
`ym_op_offset_total`). -/
def ym_op_off (op : Int) : Int := (ym_op_off_trace op).getLastD 0

/-- `ym_op` of channel_test.c: write `val` to the per-operator register
`reg + r + off` where `r` is the in-bank channel index and `off` the
hardware operator offset, dispatching to bank B for channels above 2. -/
def ym_op (ch : Nat) (op : Int) (reg val : Nat) : List Ev :=
  let off := (ym_op_off op).toNat
  if ch > 2 then ym_write1 (reg + (ch - 3) + off) val
  else ym_write0 (reg + ch + off) val

/-- `ym_on` of channel_test.c: key-on of all four operators of `ch` via
global register `0x28`. -/
def ym_on (ch : Nat) : List Ev :=
  let s := if ch < 3 then 0xF0 ||| ch else 0xF0 ||| (ch - 3) ||| 4
  ym_write0 0x28 s

/-- `ym_off` of channel_test.c: key-off of all four operators of `ch`. -/
def ym_off (ch : Nat) : List Ev :=
  let s := if ch < 3 then ch else (ch - 3) ||| 4
  ym_write0 0x28 s

/-- `ym_freq` of channel_test.c: write the block/fnum pair as the
`0xA4+r` high byte followed by the `0xA0+r` low byte, on the channel's
bank. -/
def ym_freq (ch block fnum : Nat) : List Ev :=
  let r := if ch > 2 then ch - 3 else ch
  let fh := ((block &&& 7) <<< 3) ||| ((fnum >>> 8) &&& 7)
  if ch < 3 then
    ym_write0 (0xA4 + r) fh ++ ym_write0 (0xA0 + r) (fnum &&& 0xFF)
  else
    ym_write1 (0xA4 + r) fh ++ ym_write1 (0xA0 + r) (fnum &&& 0xFF)

/-- `ym_patch_test` of channel_test.c: the test patch — algorithm 0 with
feedback 0, stereo both sides, operators 0‒2 silenced via TL, operator 3
set up as the sole carrier. -/
def ym_patch_test (ch : Nat) : List Ev :=
  let p := if ch > 2 then 1 else 0
  let r := if ch > 2 then ch - 3 else ch
  (if p < 1 then ym_write0 (0xB0 + r) 0x00 else ym_write1 (0xB0 + r) 0x00) ++
  ((if p < 1 then ym_write0 (0xB4 + r) 0xC0 else ym_write1 (0xB4 + r) 0xC0) ++
  (ym_op ch 0 0x40 0x7F ++
  (ym_op ch 1 0x40 0x7F ++
  (ym_op ch 2 0x40 0x7F ++
  (ym_op ch 3 0x30 0x01 ++
  (ym_op ch 3 0x40 0x10 ++
  (ym_op ch 3 0x50 0x1F ++
  (ym_op ch 3 0x60 0x00 ++
  (ym_op ch 3 0x70 0x00 ++
  ym_op ch 3 0x80 0x0F)))))))))

/-- `psg_w` of channel_test.c: one byte to the PSG port. -/
def psg_w (val : Nat) : List Ev := [Ev.psg (val % 256)]

/-- `psg_vol` of channel_test.c. -/
def psg_vol (ch vol : Nat) : List Ev :=
  psg_w (0x90 ||| ((ch &&& 3) <<< 5) ||| (vol &&& 15))

/-- `ym_init` of channel_test.c: three global clears, six key-offs, then
the test patch on all six FM channels and PSG muting. -/
def ym_init : List Ev :=
  ym_write0 0x22 0x00 ++
  (ym_write0 0x27 0x00 ++
  (ym_write0 0x2B 0x00 ++
  (ym_write0 0x28 0x00 ++
  (ym_write0 0x28 0x01 ++
  (ym_write0 0x28 0x02 ++
  (ym_write0 0x28 0x04 ++
  (ym_write0 0x28 0x05 ++
  (ym_write0 0x28 0x06 ++
  (ym_patch_test 0 ++
  (ym_patch_test 1 ++
  (ym_patch_test 2 ++
  (ym_patch_test 3 ++
  (ym_patch_test 4 ++
  (ym_patch_test 5 ++
  (psg_vol 0 15 ++
  (psg_vol 1 15 ++
  (psg_vol 2 15 ++
  psg_vol 3 15)))))))))))))))))

/-- The last value written to bank-A register `reg` in a trace. -/
def lastValA (t : List Ev) (reg : Nat) : Option Nat :=
  (t.filterMap (fun e =>
    match e with
    | .ymA r v => if r = reg then some v else none
    | _ => none)).getLast?

/-- The last value written to the key-on/off register `0x28` whose
bank-encoded channel code (low three bits) equals `code`. -/
def lastKeyWrite (t : List Ev) (code : Nat) : Option Nat :=
  (t.filterMap (fun e =>
    match e with
    | .ymA r v => if r = 0x28 ∧ v &&& 7 = code then some v else none
    | _ => none)).getLast?

/-- The seven per-operator register group bases
(DT_MUL, TL, RS_AR, AM_D1R, D2R, D1L_RR, SSG_EG). -/
def opGroupBases : List Nat := [0x30, 0x40, 0x50, 0x60, 0x70, 0x80, 0x90]

/-- The spec's operator offset table `{0 → 0, 1 → 8, 2 → 4, 3 → 12}`. -/
def op_offset_spec (op : Nat) : Nat :=
  if op = 0 then 0 else if op = 1 then 8 else if op = 2 then 4 else 12

/-- The offset the claim states the conditional chain of `ym_op`
computes on an arbitrary integer operator: clamped to the ends of the
offset table outside `{0..3}`. -/
def off_clamped_spec (op : Int) : Int :=
  if op ≤ 0 then 0 else if op = 1 then 8 else if op = 2 then 4 else 12

lemma off_trace_spec (op : Int) : ym_op_off_trace op = [off_clamped_spec op] := by
  unfold ym_op_off_trace off_clamped_spec
  split_ifs <;> first | rfl | omega

lemma ym_op_off_eq (op : Int) : ym_op_off op = off_clamped_spec op := by
  show (ym_op_off_trace op).getLastD 0 = _
  rw [off_trace_spec]
  rfl

lemma off_clamp (op : Int) : ym_op_off op = ym_op_off (min 3 (max 0 op)) := by
  rw [ym_op_off_eq, ym_op_off_eq]
  unfold off_clamped_spec
  split_ifs <;> omega

lemma and_seven_eq (x : Nat) : x &&& 7 = x % 8 := by
  have h := Nat.and_pow_two_sub_one_eq_mod x 3
  norm_num at h
  exact h

lemma and_ff_eq (x : Nat) : x &&& 0xFF = x % 256 := by
  have h := Nat.and_pow_two_sub_one_eq_mod x 8
  norm_num at h
  exact h

/-- Claim C1, counterexample: `ym_init` does not emit exactly 9 writes —
it emits 79 (9 global writes, then 66 patch-setup writes and 4 PSG
writes). -/
theorem ym_init_not_nine_writes : ym_init.length ≠ 9 := by decide

/-- Claim C1, amended: the first 9 writes of `ym_init` are exactly the
three global clears `0x22←0, 0x27←0, 0x2B←0` followed by the six
key-offs `0x28←{0,1,2,4,5,6}`, all on bank A and in that order, but
`ym_init` then continues with 70 further writes for a total of 79. -/
theorem ym_init_first_nine_writes :
    ym_init.take 9 =
      [Ev.ymA 0x22 0x00, Ev.ymA 0x27 0x00, Ev.ymA 0x2B 0x00,
       Ev.ymA 0x28 0x00, Ev.ymA 0x28 0x01, Ev.ymA 0x28 0x02,
       Ev.ymA 0x28 0x04, Ev.ymA 0x28 0x05, Ev.ymA 0x28 0x06] ∧
    ym_init.length = 79 := by decide

/-- Claim C2, counterexample: `ym_patch_test` does not emit 30 writes —
it emits 11. -/
theorem ym_patch_test_not_thirty_writes : (ym_patch_test 0).length ≠ 30 := by
  decide

/-- Claim C2, amended: for every channel `ch < 6`, `ym_patch_test ch`
emits exactly 11 writes, all to the channel's bank, in the order:
`ALGO_FB ← 0x00`, `STEREO_LFO ← 0xC0`, the `TL` register of operators
0, 1, 2 each `← 0x7F`, then for operator 3 the six registers
`DT_MUL ← 0x01, TL ← 0x10, RS_AR ← 0x1F, AM_D1R ← 0x00, D2R ← 0x00,
D1L_RR ← 0x0F`; no `SSG_EG` write is emitted. -/
theorem ym_patch_test_eleven_writes (ch : Nat) (h : ch < 6) :
    (ym_patch_test ch =
      if ch < 3 then
        [Ev.ymA (0xB0 + ch % 3) 0x00,
         Ev.ymA (0xB4 + ch % 3) 0xC0,
         Ev.ymA (0x40 + ch % 3 + op_offset_spec 0) 0x7F,
         Ev.ymA (0x40 + ch % 3 + op_offset_spec 1) 0x7F,
         Ev.ymA (0x40 + ch % 3 + op_offset_spec 2) 0x7F,
         Ev.ymA (0x30 + ch % 3 + op_offset_spec 3) 0x01,
         Ev.ymA (0x40 + ch % 3 + op_offset_spec 3) 0x10,
         Ev.ymA (0x50 + ch % 3 + op_offset_spec 3) 0x1F,
         Ev.ymA (0x60 + ch % 3 + op_offset_spec 3) 0x00,
         Ev.ymA (0x70 + ch % 3 + op_offset_spec 3) 0x00,
         Ev.ymA (0x80 + ch % 3 + op_offset_spec 3) 0x0F]
      else
        [Ev.ymB (0xB0 + ch % 3) 0x00,
         Ev.ymB (0xB4 + ch % 3) 0xC0,
         Ev.ymB (0x40 + ch % 3 + op_offset_spec 0) 0x7F,
         Ev.ymB (0x40 + ch % 3 + op_offset_spec 1) 0x7F,
         Ev.ymB (0x40 + ch % 3 + op_offset_spec 2) 0x7F,
         Ev.ymB (0x30 + ch % 3 + op_offset_spec 3) 0x01,
         Ev.ymB (0x40 + ch % 3 + op_offset_spec 3) 0x10,
         Ev.ymB (0x50 + ch % 3 + op_offset_spec 3) 0x1F,
         Ev.ymB (0x60 + ch % 3 + op_offset_spec 3) 0x00,
         Ev.ymB (0x70 + ch % 3 + op_offset_spec 3) 0x00,
         Ev.ymB (0x80 + ch % 3 + op_offset_spec 3) 0x0F]) ∧
    (ym_patch_test ch).length = 11 := by
  interval_cases ch <;> exact ⟨by decide, by decide⟩

/-- Claim C2, witness at channel 4. -/
theorem ym_patch_test_eleven_writes_witness : (ym_patch_test 4).length = 11 :=
  (ym_patch_test_eleven_writes 4 (by decide)).2

/-- Claim C4, counterexample: `ym_freq 0 4 644` does not write `0x24`
to register `0xA4` — the spec's arithmetic `((4<<3)|((644>>8)&7))`
evaluates to `0x22`, not `0x24`. -/
theorem ym_freq_scenario_not_spec :
    ym_freq 0 4 644 ≠ [Ev.ymA 0xA4 0x24, Ev.ymA 0xA0 0x84] := by decide

/-- Claim C4, amended: `ym_freq 0 4 644` emits exactly the two bank-A
writes `0xA4 ← 0x22` then `0xA0 ← 0x84`
(`((4<<3)|((644>>8)&7)) = 0x22`, `644 & 0xFF = 0x84`). -/
theorem ym_freq_scenario_values :
    ym_freq 0 4 644 = [Ev.ymA 0xA4 0x22, Ev.ymA 0xA0 0x84] := by decide

/-- Claim C10: the conditional chain of `ym_op` assigns `off` exactly
once for every integer operator — `op ≤ 0` yields 0, `op = 1` yields 8,
`op = 2` yields 4, `op ≥ 3` yields 12 — so `off` is never read
uninitialized, and the value read is that single assignment. -/
theorem ym_op_offset_total :
    ∀ op : Int, ym_op_off_trace op = [off_clamped_spec op] ∧
      ym_op_off op = off_clamped_spec op :=
  fun op => ⟨off_trace_spec op, ym_op_off_eq op⟩

/-- Claim C3: for every channel `ch < 6`, block `< 8` and fnum `< 2048`,
`ym_freq` emits exactly two writes, both to the channel's bank (A if
`ch < 3`, else B): first `0xA4 + ch % 3 ← ((block & 7) << 3) |
((fnum >> 8) & 7)`, then `0xA0 + ch % 3 ← fnum & 0xFF`. -/
theorem ym_freq_two_writes (ch block fnum : Nat)
    (hch : ch < 6) (hb : block < 8) (hf : fnum < 2048) :
    (ym_freq ch block fnum =
      if ch < 3 then
        [Ev.ymA (0xA4 + ch % 3) (((block &&& 7) <<< 3) ||| ((fnum >>> 8) &&& 7)),
         Ev.ymA (0xA0 + ch % 3) (fnum &&& 0xFF)]
      else
        [Ev.ymB (0xA4 + ch % 3) (((block &&& 7) <<< 3) ||| ((fnum >>> 8) &&& 7)),
         Ev.ymB (0xA0 + ch % 3) (fnum &&& 0xFF)]) ∧
    (ym_freq ch block fnum).length = 2 := by
  have hs : (block &&& 7) <<< 3 < 2 ^ 8 := by
    have h1 : block &&& 7 ≤ 7 := Nat.and_le_right
    rw [Nat.shiftLeft_eq]
    norm_num
    omega
  have h2 : (fnum >>> 8) &&& 7 < 2 ^ 8 := by
    have := Nat.and_le_right (n := fnum >>> 8) (m := 7)
    norm_num
    omega
  have hfh : ((block &&& 7) <<< 3) ||| ((fnum >>> 8) &&& 7) < 256 := by
    have := Nat.or_lt_two_pow hs h2
    norm_num at this
    exact this
  have hlo : fnum &&& 0xFF < 256 :=
    lt_of_le_of_lt Nat.and_le_right (by norm_num)
  refine ⟨?_, ?_⟩ <;>
    interval_cases ch <;>
      simp [ym_freq, ym_write0, ym_write1, Nat.mod_eq_of_lt hfh,
        Nat.mod_eq_of_lt hlo]

/-- Claim C3, witness at `ym_freq 0 4 644`. -/
theorem ym_freq_two_writes_witness : (ym_freq 0 4 644).length = 2 :=
  (ym_freq_two_writes 0 4 644 (by decide) (by decide) (by decide)).2

/-- Claim C5: for every channel `ch < 6`, `ym_on ch` writes `0x28 ←
0xF0 | ((ch % 3) | (4 if ch ≥ 3))` and `ym_off ch` writes `0x28 ←
(ch % 3) | (4 if ch ≥ 3)`, both single bank-A writes; the two values
have equal low nibbles and high nibbles differing by `0xF0`; in
particular `ym_on 5` writes `0xF6` and `ym_off 5` writes `0x06`. -/
theorem ym_key_onoff_encoding (ch : Nat) (h : ch < 6) :
    (ym_on ch =
      [Ev.ymA 0x28 (0xF0 ||| ((ch % 3) ||| (if 3 ≤ ch then 4 else 0)))]) ∧
    (ym_off ch =
      [Ev.ymA 0x28 ((ch % 3) ||| (if 3 ≤ ch then 4 else 0))]) ∧
    ((0xF0 ||| ((ch % 3) ||| (if 3 ≤ ch then 4 else 0))) &&& 0x0F =
      ((ch % 3) ||| (if 3 ≤ ch then 4 else 0)) &&& 0x0F) ∧
    ((0xF0 ||| ((ch % 3) ||| (if 3 ≤ ch then 4 else 0))) &&& 0xF0 =
      (((ch % 3) ||| (if 3 ≤ ch then 4 else 0)) &&& 0xF0) + 0xF0) ∧
    ym_on 5 = [Ev.ymA 0x28 0xF6] ∧
    ym_off 5 = [Ev.ymA 0x28 0x06] := by
  interval_cases ch <;> exact ⟨by decide, by decide, by decide, by decide,
    by decide, by decide⟩

/-- Claim C5, witness at channel 5. -/
theorem ym_key_onoff_encoding_witness : ym_on 5 = [Ev.ymA 0x28 0xF6] :=
  (ym_key_onoff_encoding 5 (by decide)).2.2.2.2.1

/-- Claim C9: for every channel `ch < 6`, no write emitted by
`ym_patch_test ch` targets the key-on/off register `0x28` on any
bank. -/
theorem ym_patch_test_no_keyon (ch : Nat) (h : ch < 6) :
    (ym_patch_test ch).all (fun e => ! e.touches 0x28) = true := by
  interval_cases ch <;> decide

/-- Claim C9, witness at channel 3. -/
theorem ym_patch_test_no_keyon_witness :
    (ym_patch_test 3).all (fun e => ! e.touches 0x28) = true :=
  ym_patch_test_no_keyon 3 (by decide)

set_option synthInstance.maxSize 4096 in
/-- Claim C6: for every operator group base, channel `ch < 6` and
operator `op < 4`, `ym_op` writes the single register
`base + ch % 3 + offset(op)` with the offset table `{0→0, 1→8, 2→4,
3→12}`, on bank A for `ch < 3` and bank B otherwise; the address lies
in `[base, base + 15]`, and the 24 `(ch, op)` pairs hit pairwise
distinct `(bank, address)` tuples within the group. -/
theorem ym_op_addressing :
    ∀ base ∈ opGroupBases, ∀ ch : Nat, ch < 6 → ∀ opn : Nat, opn < 4 →
      (ym_op ch (opn : Int) base 0x55 =
        [if ch < 3 then Ev.ymA (base + ch % 3 + op_offset_spec opn) 0x55
         else Ev.ymB (base + ch % 3 + op_offset_spec opn) 0x55]) ∧
      base ≤ base + ch % 3 + op_offset_spec opn ∧
      base + ch % 3 + op_offset_spec opn ≤ base + 15 ∧
      ((List.range 6).flatMap fun c =>
        (List.range 4).map fun o =>
          (ym_op c (o : Int) base 0x55).map Ev.target).Nodup := by
  decide

/-- Claim C6, witness at base `0x30`, channel 5, operator 3. -/
theorem ym_op_addressing_witness :
    ym_op 5 ((3 : Nat) : Int) 0x30 0x55 =
      [if (5 : Nat) < 3 then Ev.ymA (0x30 + 5 % 3 + op_offset_spec 3) 0x55
       else Ev.ymB (0x30 + 5 % 3 + op_offset_spec 3) 0x55] :=
  (ym_op_addressing 0x30 (by decide) 5 (by decide) 3 (by decide)).1

/-- Claim C7: after `ym_init`, the last writes to the global registers
`0x22`, `0x27` and `0x2B` leave them 0, for each of the six channel
codes `{0,1,2,4,5,6}` the last write to `0x28` carrying that code has
high nibble `0x00` (all channels keyed off), and nothing after the
first 9 writes of `ym_init` touches `0x28`, `0x22`, `0x27` or
`0x2B`. -/
theorem ym_init_final_state :
    lastValA ym_init 0x22 = some 0 ∧
    lastValA ym_init 0x27 = some 0 ∧
    lastValA ym_init 0x2B = some 0 ∧
    lastKeyWrite ym_init 0 = some 0x00 ∧
    lastKeyWrite ym_init 1 = some 0x01 ∧
    lastKeyWrite ym_init 2 = some 0x02 ∧
    lastKeyWrite ym_init 4 = some 0x04 ∧
    lastKeyWrite ym_init 5 = some 0x05 ∧
    lastKeyWrite ym_init 6 = some 0x06 ∧
    (lastKeyWrite ym_init 0).map (fun v => v &&& 0xF0) = some 0 ∧
    (lastKeyWrite ym_init 1).map (fun v => v &&& 0xF0) = some 0 ∧
    (lastKeyWrite ym_init 2).map (fun v => v &&& 0xF0) = some 0 ∧
    (lastKeyWrite ym_init 4).map (fun v => v &&& 0xF0) = some 0 ∧
    (lastKeyWrite ym_init 5).map (fun v => v &&& 0xF0) = some 0 ∧
    (lastKeyWrite ym_init 6).map (fun v => v &&& 0xF0) = some 0 ∧
    (ym_init.drop 9).all (fun e =>
      !(e.touches 0x28 || e.touches 0x22 || e.touches 0x27 ||
        e.touches 0x2B)) = true := by
  decide

/-- Claim C8, counterexample: out-of-range channels are not masked into
range — `ym_on 6` and `ym_on (6 % 6)` emit different writes
(`0x28 ← 0xF7` versus `0x28 ← 0xF0`). -/
theorem masking_fails_on_channel : ym_on 6 ≠ ym_on (6 % 6) := by decide

/-- Claim C8, amended: only `block` and `fnum` are masked into range —
for channels in range, `ym_freq` is unchanged by reducing `block`
mod 8 and `fnum` mod 2048; the operator argument of `ym_op` is clamped
to the ends of the offset table rather than reduced mod 4 (so `op = 4`
differs from `op = 4 % 4`); and channel arguments are not masked
(`ym_on 6` differs from `ym_on (6 % 6)`). -/
theorem arg_masking_amended (ch block fnum : Nat) (op : Int)
    (hch : ch < 6) :
    ym_freq ch block fnum = ym_freq ch (block % 8) (fnum % 2048) ∧
    ym_op ch op 0x30 0x7F = ym_op ch (min 3 (max 0 op)) 0x30 0x7F ∧
    ym_on 6 ≠ ym_on (6 % 6) ∧
    ym_op 0 4 0x30 0x7F ≠ ym_op 0 ((4 : Int) % 4) 0x30 0x7F := by
  refine ⟨?_, ?_, by decide, by decide⟩
  · have e1 : block &&& 7 = (block % 8) &&& 7 := by
      rw [and_seven_eq, and_seven_eq, Nat.mod_mod_of_dvd block dvd_rfl]
    have e2 : (fnum >>> 8) &&& 7 = ((fnum % 2048) >>> 8) &&& 7 := by
      rw [and_seven_eq, and_seven_eq, Nat.shiftRight_eq_div_pow,
        Nat.shiftRight_eq_div_pow]
      norm_num
      rw [show (2048 : Nat) = 256 * 8 by norm_num,
        Nat.mod_mul_right_div_self, Nat.mod_mod_of_dvd _ dvd_rfl]
    have e3 : fnum &&& 0xFF = (fnum % 2048) &&& 0xFF := by
      rw [and_ff_eq, and_ff_eq, Nat.mod_mod_of_dvd fnum (by norm_num)]
    simp only [ym_freq]
    rw [e1, e2, e3]
  · simp only [ym_op]
    rw [off_clamp op]

/-- Claim C8, witness: `ym_freq` masking at channel 0, block 9,
fnum 3000, and operator clamping at `op = -2`. -/
theorem arg_masking_amended_witness :
    ym_freq 0 9 3000 = ym_freq 0 (9 % 8) (3000 % 2048) ∧
    ym_op 0 (-2) 0x30 0x7F = ym_op 0 (min 3 (max 0 (-2))) 0x30 0x7F :=
  ⟨(arg_masking_amended 0 9 3000 (-2) (by decide)).1,
   (arg_masking_amended 0 9 3000 (-2) (by decide)).2.1⟩
